import Mathlib

/-!
Verification of the single-page admin front-end in `src/webapp/app.js`.

The file keeps three pieces of mutable client state at module scope —
`currentChatId`, `cachedMembers` (the member list of the open group, as last
fetched) and `selected` (a JS `Set` of member-id values) — plus the DOM
widgets it renders into (status line, group title, panel visibility, the
`tg-name` text input).  We embed that state shallowly: the state is a Lean
structure, each event handler becomes a state transformer, and each network
call is replaced by an explicit argument describing its outcome (the fetched
value on success, `none` / `false` on a transport or parse failure).

Member ids come from the server as JSON integers (Telegram user ids) and may
be absent; we model an id as `Option Int` (`none` = the field is missing /
null / undefined).  The values that can actually end up inside the JS
selection `Set` are: a raw id (`selected.add(m.id)` in `toggleMember`, which
may add `undefined`), or the result of `parseInt(card.dataset.id)`
(`selectAllToggle`), which is an integer or `NaN`.  The type `JSVal` below
covers exactly those values.
-/

namespace Webapp

/-- A JS value that can be stored in the selection `Set`: `undefined`
(a member whose `id` field is absent), `NaN` (the result of `parseInt` on a
non-numeric string), or a number (an integer id). -/
inductive JSVal where
  | undef : JSVal
  | nan : JSVal
  | num : Int → JSVal
deriving DecidableEq, Repr

/-- One entry of the array returned by `GET /api/members/{chatId}`:
`{ id, name }`, both fields optional. -/
structure Member where
  id : Option Int
  name : Option String
deriving DecidableEq, Repr

/-- The raw id value as stored by `selected.add(m.id)`: the integer itself,
or `undefined` when the field is absent. -/
def jsId : Option Int → JSVal
  | none => .undef
  | some n => .num n

/-- JS truthiness of the `id` field of a member: `undefined`, `null`, `0`
and the empty string are falsy.  With integer ids, falsy means absent or
zero. -/
def idFalsy : Option Int → Bool
  | none => true
  | some n => n == 0

/-- Models `parseInt(card.dataset.id)`.  `renderMembers` stores
`card.dataset.id = m.id || ''`, i.e. the decimal string of a truthy id or
the empty string for a falsy one (`renderMembers`, line 105).  `parseInt`
returns `NaN` (here `none`) on the empty string and recovers the integer
from its decimal string (JS integer ids round-trip through `String`). -/
def parseDatasetId : Option Int → Option Int
  | none => none
  | some n => if n = 0 then none else some n

/-- JS truthiness of a number-or-NaN: `NaN` and `0` are falsy. -/
def numTruthy : Option Int → Bool
  | none => false
  | some n => n != 0

/-- The JS value of a number-or-NaN, as stored into the `Set` by
`selected.add(id)`. -/
def numOrNaN : Option Int → JSVal
  | none => .nan
  | some n => .num n

/-- The client state of `app.js`: the three module-scope globals
(`currentChatId`, `cachedMembers`, `selected`) together with the DOM state
the handlers read and write (status line, panel visibility, group title and
the `tg-name` input value). -/
structure AppState where
  currentChatId : Option Int
  cachedMembers : List Member
  selected : Finset JSVal
  status : String
  panelHidden : Bool
  groupTitle : String
  nameInput : String

/-- The set of id values present in a member list, as raw JS values:
`{ jsId m.id | m ∈ cached }`. -/
def memberIds (cached : List Member) : Finset JSVal :=
  (cached.map (fun m => jsId m.id)).toFinset

/--
`toggleMember(card, id)` (lines 140-144): flip the selected CSS class of the
card (`const is = card.classList.toggle(...)`), then `if(is) selected.add(id);
else selected.delete(id);`.  The card is represented by its selected-class
flag; the function returns the new flag and the new selection set.  Note
that the raw `id` value is added, not the parsed dataset value.
-/
def toggleMember (cardSelected : Bool) (id : Option Int) (selected : Finset JSVal) :
    Bool × Finset JSVal :=
  let isSel := !cardSelected
  if isSel then (isSel, insert (jsId id) selected)
  else (isSel, selected.erase (jsId id))

/--
The body of the `forEach` in the selecting branch of `selectAllToggle`
(lines 152-156), applied to the card of member `m`:

    const id = parseInt(c.dataset.id);
    if(id) selected.add(id);
-/
def selectAllInsert (s : Finset JSVal) (m : Member) : Finset JSVal :=
  let id := parseDatasetId m.id
  if numTruthy id then insert (numOrNaN id) s else s

/--
`selectAllToggle()` (first copy, lines 146-158): if the selection size
equals the cached member count, clear the selection; otherwise walk every
member card and add its parsed dataset id when truthy.  The cards present in
the DOM are exactly the rendered `cachedMembers`.
-/
def selectAllToggle (cached : List Member) (selected : Finset JSVal) : Finset JSVal :=
  if selected.card = cached.length then ∅
  else cached.foldl selectAllInsert selected

/--
The body of the `forEach` in the selecting branch of the second copy of
`selectAllToggle` (lines 291-294): `selectedMembers.add(parseInt(c.dataset.id))`
with no truthiness guard, so `NaN` is added for a card whose dataset id is
empty.
-/
def selectAllInsert2 (s : Finset JSVal) (m : Member) : Finset JSVal :=
  insert (numOrNaN (parseDatasetId m.id)) s

/-- `selectAllToggle()` (second copy, lines 285-296). -/
def selectAllToggle2 (cached : List Member) (selected : Finset JSVal) : Finset JSVal :=
  if selected.card = cached.length then ∅
  else cached.foldl selectAllInsert2 selected

/--
`loadMembers()` (lines 84-97).  The fetch outcome is passed explicitly:
`some members` when `fetch` + `res.json()` succeed, `none` when the `try`
block throws.  On success the member cache is replaced and the selection is
reset (`cachedMembers = members; selected = new Set()`); in the `catch`
branch only the status line is written — cache and selection keep their
previous values.
-/
def loadMembers (fetched : Option (List Member)) (st : AppState) : AppState :=
  match fetched with
  | some members =>
      { st with cachedMembers := members, selected := ∅,
                status := "Select members and create tag" }
  | none => { st with status := "Failed to load members" }

/--
`openGroup(chatId, title)` (lines 43-50): set `currentChatId`, unhide the
panel, write the title (`title || Group chatId`), set the status line, then
`await renderTagGroups(); await loadMembers();`.  `renderTagGroups` only
rewrites the tag-group DOM list and touches none of the modelled state
fields, so its state effect is the identity; the member-fetch outcome is
passed through to `loadMembers`.
-/
def openGroup (chatId : Int) (title : Option String)
    (fetchedMembers : Option (List Member)) (st : AppState) : AppState :=
  loadMembers fetchedMembers
    { st with currentChatId := some chatId,
              panelHidden := false,
              groupTitle := title.getD ("Group " ++ toString chatId),
              status := "Loading members and tag groups..." }

/-- Models `name.trim()` in `createTagGroup` (line 161): strip whitespace
from both ends of the string.  Written by structural recursion on the
character list so that it evaluates inside the kernel. -/
def jsTrim (s : String) : String :=
  ⟨((s.data.dropWhile Char.isWhitespace).reverse.dropWhile Char.isWhitespace).reverse⟩

/-- The observable outcome of one `createTagGroup()` call: whether the POST
to `/api/taggroups` was issued, which `alert` was shown (if any), the value
of the `tg-name` input afterwards, the selection set afterwards, and whether
`renderTagGroups` was re-run. -/
structure CreateOutcome where
  postAttempted : Bool
  alertMsg : Option String
  nameInputAfter : String
  selectedAfter : Finset JSVal
  refetchedTagGroups : Bool
deriving DecidableEq

/--
`createTagGroup()` (first copy, lines 160-178): trim the value of the
tg-name input; if the trimmed name is empty, return after an alert asking
for a name; if the selection is empty, return after an alert asking for a
member; otherwise POST to /api/taggroups inside a `try` block — on success
alert that the tag group was created, clear the tg-name input and
`await renderTagGroups()`; in the `catch` branch log and alert that the
creation failed.

`netOk` is the outcome of the `fetch`: `true` when the POST round-trip
succeeds, `false` when the `try` block throws.  Neither branch touches the
`selected` set.
-/
def createTagGroup (netOk : Bool) (st : AppState) : CreateOutcome :=
  let name := jsTrim st.nameInput
  if name = "" then
    { postAttempted := false, alertMsg := some "Enter a tag group name",
      nameInputAfter := st.nameInput, selectedAfter := st.selected,
      refetchedTagGroups := false }
  else if st.selected.card = 0 then
    { postAttempted := false, alertMsg := some "Select at least one member",
      nameInputAfter := st.nameInput, selectedAfter := st.selected,
      refetchedTagGroups := false }
  else if netOk then
    { postAttempted := true, alertMsg := some "Tag group created",
      nameInputAfter := "", selectedAfter := st.selected,
      refetchedTagGroups := true }
  else
    { postAttempted := true, alertMsg := some "Failed to create",
      nameInputAfter := st.nameInput, selectedAfter := st.selected,
      refetchedTagGroups := false }

/-- The observable outcome of one call of the second copy of
`createTagGroup` (lines 298-310): as `CreateOutcome`, plus whether the
async function rejected (that copy has no `try`/`catch`, so a failing
`fetch` rejects it and nothing after the `await` runs). -/
structure CreateOutcome2 where
  postAttempted : Bool
  alertMsg : Option String
  nameInputAfter : String
  selectedAfter : Finset JSVal
  refetchedTagGroups : Bool
  threw : Bool
deriving DecidableEq

/--
`createTagGroup()` (second copy, lines 298-310): trim the value of the
tg-name input; if the trimmed name is empty, return after an alert asking
for a name; if the selection is empty, return after an alert asking for a
member; otherwise POST to /api/taggroups with no enclosing `try` — on
success alert that the tag group was created, clear the tg-name input and
`await renderTagGroups()`; on failure the `await fetch` rejects the
function, so no alert is shown, the input keeps its value and no re-fetch
happens.  No branch touches the selection set.
-/
def createTagGroup2 (netOk : Bool) (st : AppState) : CreateOutcome2 :=
  let name := jsTrim st.nameInput
  if name = "" then
    { postAttempted := false, alertMsg := some "Enter a name",
      nameInputAfter := st.nameInput, selectedAfter := st.selected,
      refetchedTagGroups := false, threw := false }
  else if st.selected.card = 0 then
    { postAttempted := false, alertMsg := some "Select at least one member",
      nameInputAfter := st.nameInput, selectedAfter := st.selected,
      refetchedTagGroups := false, threw := false }
  else if netOk then
    { postAttempted := true, alertMsg := some "Created tag group",
      nameInputAfter := "", selectedAfter := st.selected,
      refetchedTagGroups := true, threw := false }
  else
    { postAttempted := true, alertMsg := none,
      nameInputAfter := st.nameInput, selectedAfter := st.selected,
      refetchedTagGroups := false, threw := true }

/-- The user-visible / control-flow effects of running one operation with a
given network outcome: what the status line was set to, which `alert` was
shown, whether `console.error` logged, and whether an exception escaped the
operation (no enclosing `try`). -/
structure OpEffects where
  statusMsg : Option String
  alertMsg : Option String
  logged : Bool
  threw : Bool
deriving DecidableEq

/-- An error is surfaced to the user when it produces a status-line message
or a blocking `alert`. -/
def surfacedToUser (e : OpEffects) : Bool :=
  e.statusMsg.isSome || e.alertMsg.isSome

/-- `loadGroups()` (lines 22-41): the whole body sits in a `try` block that
ends by setting the status line; the `catch` branch logs the error and sets
the status line to a failure message.  `ok` covers both transport failure
and a malformed response (either throws inside the `try`). -/
def loadGroupsRun (ok : Bool) : OpEffects :=
  if ok then { statusMsg := some "Tap a group to manage", alertMsg := none,
               logged := false, threw := false }
  else { statusMsg := some "Failed to load groups", alertMsg := none,
         logged := true, threw := false }

/-- `renderTagGroups()` (first copy, lines 53-81): the whole body is wrapped
in `try { ... } catch(e){ console.error(e); }` — on failure the error is
caught and logged, but no status line is written and no alert is shown. -/
def renderTagGroupsRun (ok : Bool) : OpEffects :=
  if ok then { statusMsg := none, alertMsg := none, logged := false, threw := false }
  else { statusMsg := none, alertMsg := none, logged := true, threw := false }

/-- `loadMembers()` (lines 84-97): the `catch` branch logs the error and
sets the status line to a failure message. -/
def loadMembersRun (ok : Bool) : OpEffects :=
  if ok then { statusMsg := some "Select members and create tag", alertMsg := none,
               logged := false, threw := false }
  else { statusMsg := some "Failed to load members", alertMsg := none,
         logged := true, threw := false }

/-- `triggerTag(name)` (first copy, lines 180-191): a `try` block ending in
a confirmation alert; the `catch` branch logs and shows a failure alert. -/
def triggerTagRun (ok : Bool) : OpEffects :=
  if ok then { statusMsg := none, alertMsg := some "Triggered",
               logged := false, threw := false }
  else { statusMsg := none, alertMsg := some "Trigger failed",
         logged := true, threw := false }

/-- `renderTagGroups()` (second copy, lines 201-227): no `try`/`catch` at
all — a failing `fetch` or `res.json()` rejects the async function and the
error propagates to the caller. -/
def renderTagGroups2Run (ok : Bool) : OpEffects :=
  if ok then { statusMsg := none, alertMsg := none, logged := false, threw := false }
  else { statusMsg := none, alertMsg := none, logged := false, threw := true }

/-- `triggerTag(name)` (second copy, lines 229-235): no `try`/`catch`; on
success a confirmation alert is shown, on failure the rejection propagates
out of the function. -/
def triggerTag2Run (ok : Bool) : OpEffects :=
  if ok then { statusMsg := none, alertMsg := some "Tag triggered in group",
               logged := false, threw := false }
  else { statusMsg := none, alertMsg := none, logged := false, threw := true }

/-- The network events `openGroup` can cause: start / completion of the
tag-group fetch (`GET /api/taggroups/{chatId}`) and of the member fetch
(`GET /api/members/{chatId}`). -/
inductive NetEvent where
  | tagFetchStart : NetEvent
  | tagFetchDone : NetEvent
  | memberFetchStart : NetEvent
  | memberFetchDone : NetEvent
deriving DecidableEq, BEq, Repr

/-- The order of network events produced by one run of `openGroup`
(lines 48-49): `await renderTagGroups(); await loadMembers();`.  The first
`await` suspends `openGroup` until the tag-group fetch has completed
(or failed), and only then does `loadMembers` run and start the member
fetch — the two requests are issued sequentially, never concurrently. -/
def openGroupTrace : List NetEvent :=
  [.tagFetchStart, .tagFetchDone, .memberFetchStart, .memberFetchDone]

/-- The set of values the selecting branch of `selectAllToggle` adds: the
parsed dataset id of every member whose parsed id is truthy. -/
def truthyIds (cached : List Member) : Finset JSVal :=
  ((cached.filter (fun m => numTruthy (parseDatasetId m.id))).map
    (fun m => numOrNaN (parseDatasetId m.id))).toFinset

/-- The set of values the selecting branch of the second copy adds: the
parsed dataset id of every member, `NaN` included. -/
def parsedIds (cached : List Member) : Finset JSVal :=
  (cached.map (fun m => numOrNaN (parseDatasetId m.id))).toFinset

lemma truthyIds_cons_of_truthy {m : Member} (l : List Member)
    (h : numTruthy (parseDatasetId m.id) = true) :
    truthyIds (m :: l) = insert (numOrNaN (parseDatasetId m.id)) (truthyIds l) := by
  simp [truthyIds, List.filter_cons, h]

lemma truthyIds_cons_of_falsy {m : Member} (l : List Member)
    (h : numTruthy (parseDatasetId m.id) = false) :
    truthyIds (m :: l) = truthyIds l := by
  simp [truthyIds, List.filter_cons, h]

/-- The selecting branch of `selectAllToggle` computes exactly the union of
the previous selection with the truthy parsed ids of the cached members. -/
lemma foldl_selectAllInsert (l : List Member) (s : Finset JSVal) :
    l.foldl selectAllInsert s = s ∪ truthyIds l := by
  induction l generalizing s with
  | nil => simp [truthyIds]
  | cons m l ih =>
      rw [List.foldl_cons, ih]
      by_cases h : numTruthy (parseDatasetId m.id) = true
      · rw [truthyIds_cons_of_truthy l h]
        simp only [selectAllInsert, h, if_true]
        rw [Finset.insert_union, Finset.union_insert]
      · rw [truthyIds_cons_of_falsy l (by simpa using h)]
        simp [selectAllInsert, h]

/-- The selecting branch of the second copy computes the union of the
previous selection with the parsed ids (NaN included) of all members. -/
lemma foldl_selectAllInsert2 (l : List Member) (s : Finset JSVal) :
    l.foldl selectAllInsert2 s = s ∪ parsedIds l := by
  induction l generalizing s with
  | nil => simp [parsedIds]
  | cons m l ih =>
      rw [List.foldl_cons, ih, selectAllInsert2]
      have : parsedIds (m :: l) = insert (numOrNaN (parseDatasetId m.id)) (parsedIds l) := by
        simp [parsedIds]
      rw [this, Finset.insert_union, Finset.union_insert]

/-- Every element of `truthyIds` is a nonzero number. -/
lemma mem_truthyIds {x : JSVal} {l : List Member} (hx : x ∈ truthyIds l) :
    ∃ n : Int, n ≠ 0 ∧ x = .num n ∧ .num n ∈ memberIds l := by
  simp only [truthyIds, List.mem_toFinset, List.mem_map, List.mem_filter] at hx
  obtain ⟨m, ⟨hm, htr⟩, hval⟩ := hx
  cases hid : m.id with
  | none => rw [hid] at htr; simp [parseDatasetId, numTruthy] at htr
  | some n =>
      rw [hid] at htr hval
      by_cases hn : n = 0
      · subst hn; simp [parseDatasetId, numTruthy] at htr
      · refine ⟨n, hn, ?_, ?_⟩
        · rw [← hval]; simp [parseDatasetId, hn, numOrNaN]
        · simp only [memberIds, List.mem_toFinset, List.mem_map]
          exact ⟨m, hm, by simp [hid, jsId]⟩

/-- Every element of `parsedIds` is `NaN` or a nonzero number. -/
lemma mem_parsedIds {x : JSVal} {l : List Member} (hx : x ∈ parsedIds l) :
    x = .nan ∨ ∃ n : Int, n ≠ 0 ∧ x = .num n := by
  simp only [parsedIds, List.mem_toFinset, List.mem_map] at hx
  obtain ⟨m, _, hval⟩ := hx
  cases hid : m.id with
  | none => left; rw [← hval, hid]; rfl
  | some n =>
      by_cases hn : n = 0
      · left; rw [← hval, hid, hn]; rfl
      · right; exact ⟨n, hn, by rw [← hval, hid]; simp [parseDatasetId, hn, numOrNaN]⟩

lemma truthyIds_subset_memberIds (l : List Member) : truthyIds l ⊆ memberIds l := by
  intro x hx
  obtain ⟨n, _, hxn, hmem⟩ := mem_truthyIds hx
  rw [hxn]; exact hmem

lemma numTruthy_parseDatasetId_iff (oid : Option Int) :
    numTruthy (parseDatasetId oid) = true ↔ ∃ n : Int, oid = some n ∧ n ≠ 0 := by
  cases oid with
  | none => simp [parseDatasetId, numTruthy]
  | some n =>
      by_cases hn : n = 0 <;> simp [parseDatasetId, numTruthy, hn]

lemma jsId_of_falsy {oid : Option Int} (h : idFalsy oid = true) :
    jsId oid = .undef ∨ jsId oid = .num 0 := by
  cases oid with
  | none => exact Or.inl rfl
  | some n =>
      right
      have : n = 0 := by simpa [idFalsy] using h
      rw [this]; rfl

lemma numTruthy_of_falsy {oid : Option Int} (h : idFalsy oid = true) :
    numTruthy (parseDatasetId oid) = false := by
  cases oid with
  | none => rfl
  | some n =>
      have : n = 0 := by simpa [idFalsy] using h
      simp [this, parseDatasetId, numTruthy]

lemma length_filter_lt_of_mem {α : Type} (p : α → Bool) {l : List α} {x : α}
    (hx : x ∈ l) (hpx : p x = false) : (l.filter p).length < l.length := by
  induction l with
  | nil => cases hx
  | cons a l ih =>
      rw [List.filter_cons]
      rcases List.mem_cons.mp hx with rfl | hx'
      · rw [hpx]
        exact Nat.lt_succ_of_le (List.length_filter_le p l)
      · by_cases hpa : p a = true
        · rw [hpa]
          simpa using Nat.succ_lt_succ (ih hx')
        · rw [Bool.not_eq_true] at hpa
          rw [hpa]
          exact Nat.lt_succ_of_lt (ih hx')

/--
C1: at every client state where the selection is a subset of the id values
of the cached member list, each selection-mutating operation preserves that
invariant: `toggleMember` (which inserts or removes the raw `m.id` of a
rendered member), `selectAllToggle` (which inserts `parseInt` images of the
dataset ids, each of which is the id value of a cached truthy member), and
`loadMembers` (which either resets the selection to empty or, on fetch
failure, leaves both the selection and the cache untouched).
-/
theorem selection_subset_invariant (st : AppState)
    (hsub : st.selected ⊆ memberIds st.cachedMembers) :
    (∀ (ws : Bool) (id : Option Int), id ∈ st.cachedMembers.map Member.id →
      (toggleMember ws id st.selected).2 ⊆ memberIds st.cachedMembers)
    ∧ selectAllToggle st.cachedMembers st.selected ⊆ memberIds st.cachedMembers
    ∧ (∀ fetched, (loadMembers fetched st).selected ⊆
        memberIds (loadMembers fetched st).cachedMembers) := by
  refine ⟨?_, ?_, ?_⟩
  · intro ws id hid
    have hmem : jsId id ∈ memberIds st.cachedMembers := by
      simp only [memberIds, List.mem_toFinset, List.mem_map]
      obtain ⟨m, hm, hmid⟩ := List.mem_map.mp hid
      exact ⟨m, hm, by rw [hmid]⟩
    cases ws with
    | false =>
        have : (toggleMember false id st.selected).2 = insert (jsId id) st.selected := rfl
        rw [this]
        exact Finset.insert_subset hmem hsub
    | true =>
        have : (toggleMember true id st.selected).2 = st.selected.erase (jsId id) := rfl
        rw [this]
        exact (Finset.erase_subset _ _).trans hsub
  · rw [selectAllToggle]
    split
    · exact Finset.empty_subset _
    · rw [foldl_selectAllInsert]
      exact Finset.union_subset hsub (truthyIds_subset_memberIds _)
  · intro fetched
    cases fetched with
    | some members => exact Finset.empty_subset _
    | none => exact hsub

/-- Witness for C1 at a concrete state. -/
theorem selection_subset_invariant_witness :
    selectAllToggle [Member.mk (some 5) none] {JSVal.num 5} ⊆
      memberIds [Member.mk (some 5) none] :=
  (selection_subset_invariant
    { currentChatId := none, cachedMembers := [Member.mk (some 5) none],
      selected := {JSVal.num 5}, status := "", panelHidden := true,
      groupTitle := "", nameInput := "" } (by decide)).2.1

/--
C2 counterexample: with cached members of ids 1 and 2 and starting selection
containing only the value 1, the first `selectAllToggle` takes the selecting
branch (1 selected of 2 members) and yields the full set of both ids, and
the second call then takes the clearing branch and yields the empty set —
not the original selection.  The double application is not the identity for
arbitrary starting selections.
-/
theorem selectAllToggle_twice_counterexample :
    selectAllToggle [Member.mk (some 1) none, Member.mk (some 2) none]
      (selectAllToggle [Member.mk (some 1) none, Member.mk (some 2) none]
        {JSVal.num 1}) ≠ {JSVal.num 1} := by decide

/--
C2 (amended): for a cached member list whose members all have truthy ids
that are pairwise distinct, applying `selectAllToggle` twice starting from
the empty selection returns the selection to its original (empty) value:
the first call selects every member id and the second call, finding the
selection size equal to the member count, clears it.
-/
theorem selectAllToggle_twice_from_empty (cached : List Member)
    (htruthy : ∀ m ∈ cached, numTruthy (parseDatasetId m.id) = true)
    (hnodup : (cached.map Member.id).Nodup) :
    selectAllToggle cached (selectAllToggle cached ∅) = ∅ := by
  cases cached with
  | nil => decide
  | cons m l =>
      have hfirst : selectAllToggle (m :: l) ∅ = truthyIds (m :: l) := by
        rw [selectAllToggle, if_neg (by simp), foldl_selectAllInsert,
          Finset.empty_union]
      have hfilter :
          (m :: l).filter (fun x => numTruthy (parseDatasetId x.id)) = m :: l :=
        List.filter_eq_self.mpr htruthy
      have hmapeq :
          (m :: l).map (fun x => numOrNaN (parseDatasetId x.id)) =
            ((m :: l).map Member.id).map (fun oid => numOrNaN (parseDatasetId oid)) := by
        rw [List.map_map]
        rfl
      have hmapnodup :
          ((m :: l).map (fun x => numOrNaN (parseDatasetId x.id))).Nodup := by
        rw [hmapeq]
        refine hnodup.map_on ?_
        intro x hx y hy hxy
        obtain ⟨nx, hxval, hnx⟩ := (numTruthy_parseDatasetId_iff x).mp (by
          obtain ⟨mx, hmx, hmxid⟩ := List.mem_map.mp hx
          rw [← hmxid]; exact htruthy mx hmx)
        obtain ⟨ny, hyval, hny⟩ := (numTruthy_parseDatasetId_iff y).mp (by
          obtain ⟨my, hmy, hmyid⟩ := List.mem_map.mp hy
          rw [← hmyid]; exact htruthy my hmy)
        rw [hxval, hyval] at hxy ⊢
        have : (JSVal.num nx) = (JSVal.num ny) := by
          simpa [parseDatasetId, numOrNaN, hnx, hny] using hxy
        cases this
        rfl
      have hcard : (truthyIds (m :: l)).card = (m :: l).length := by
        rw [truthyIds, hfilter, List.toFinset_card_of_nodup hmapnodup,
          List.length_map]
      rw [hfirst, selectAllToggle, if_pos hcard]

/-- Witness for C2 (amended) at a concrete one-member list. -/
theorem selectAllToggle_twice_from_empty_witness :
    selectAllToggle [Member.mk (some 1) none]
      (selectAllToggle [Member.mk (some 1) none] ∅) = ∅ :=
  selectAllToggle_twice_from_empty [Member.mk (some 1) none]
    (by decide) (by decide)

/--
C3: for a member whose id field is falsy (absent or zero), neither copy of
`selectAllToggle` ever adds that id value to the selection set: the first
copy guards the insertion with JS truthiness of the parsed dataset id, and
the second copy only ever inserts `NaN` or nonzero numbers, never the falsy
id value itself.  Moreover, in the first copy every value added by the
selecting branch is the parsed id of a cached member with a truthy id.
-/
theorem selectAll_never_adds_falsy (cached : List Member) (s : Finset JSVal)
    (m : Member) (hfalsy : idFalsy m.id = true) (hnot : jsId m.id ∉ s) :
    jsId m.id ∉ selectAllToggle cached s
    ∧ jsId m.id ∉ selectAllToggle2 cached s
    ∧ (∀ x ∈ selectAllToggle cached s, x ∈ s ∨ x ∈ truthyIds cached) := by
  have hval := jsId_of_falsy hfalsy
  refine ⟨?_, ?_, ?_⟩
  · rw [selectAllToggle]
    split
    · exact Finset.not_mem_empty _
    · rw [foldl_selectAllInsert]
      intro hmem
      rcases Finset.mem_union.mp hmem with h | h
      · exact hnot h
      · obtain ⟨n, hn, hxn, _⟩ := mem_truthyIds h
        rcases hval with h0 | h0 <;> rw [h0] at hxn
        · exact JSVal.noConfusion hxn
        · exact hn (JSVal.num.inj hxn.symm)
  · rw [selectAllToggle2]
    split
    · exact Finset.not_mem_empty _
    · rw [foldl_selectAllInsert2]
      intro hmem
      rcases Finset.mem_union.mp hmem with h | h
      · exact hnot h
      · rcases mem_parsedIds h with hxn | ⟨n, hn, hxn⟩ <;>
          rcases hval with h0 | h0 <;> rw [h0] at hxn
        · exact JSVal.noConfusion hxn
        · exact JSVal.noConfusion hxn
        · exact JSVal.noConfusion hxn
        · exact hn (JSVal.num.inj hxn.symm)
  · rw [selectAllToggle]
    split
    · intro x hx
      exact absurd hx (Finset.not_mem_empty _)
    · rw [foldl_selectAllInsert]
      intro x hx
      exact Finset.mem_union.mp hx

/-- Witness for C3 at a concrete list with one falsy and one truthy id. -/
theorem selectAll_never_adds_falsy_witness :
    jsId (some 0) ∉
      selectAllToggle [Member.mk (some 0) none, Member.mk (some 7) none] ∅ :=
  (selectAll_never_adds_falsy
    [Member.mk (some 0) none, Member.mk (some 7) none] ∅
    (Member.mk (some 0) none) (by decide) (by decide)).1

/--
C4 counterexample: with starting selection containing the value 1 but the
card in the unselected visual state, two `toggleMember` calls on that card
with id 1 first insert 1 (a no-op, it is already present) and then delete
it, ending with the empty selection — not the original one.  The pair of
toggles is not an identity for arbitrary combinations of selection set and
visual card state.
-/
theorem toggleMember_twice_counterexample :
    (toggleMember (toggleMember false (some 1) {JSVal.num 1}).1 (some 1)
      (toggleMember false (some 1) {JSVal.num 1}).2).2 ≠
        ({JSVal.num 1} : Finset JSVal) := by decide

/--
C4 (amended): invoking `toggleMember` twice in a row with the same id
restores the original selection set whenever the starting visual state of
the card agrees with membership of the raw id value in the selection set
(the state every reachable render produces for truthy ids); with a
disagreeing pair the double toggle adds or removes the id instead.
-/
theorem toggleMember_twice_id (cardSel : Bool) (id : Option Int)
    (s : Finset JSVal) (hagree : cardSel = true ↔ jsId id ∈ s) :
    (toggleMember (toggleMember cardSel id s).1 id
      (toggleMember cardSel id s).2).2 = s := by
  cases cardSel with
  | false =>
      have hnot : jsId id ∉ s := fun h => by simpa using hagree.mpr h
      have h1 : toggleMember false id s = (true, insert (jsId id) s) := rfl
      rw [h1]
      have h2 : (toggleMember true id (insert (jsId id) s)).2 =
          (insert (jsId id) s).erase (jsId id) := rfl
      rw [h2]
      exact Finset.erase_insert hnot
  | true =>
      have hin : jsId id ∈ s := hagree.mp rfl
      have h1 : toggleMember true id s = (false, s.erase (jsId id)) := rfl
      rw [h1]
      have h2 : (toggleMember false id (s.erase (jsId id))).2 =
          insert (jsId id) (s.erase (jsId id)) := rfl
      rw [h2]
      exact Finset.insert_erase hin

/-- Witness for C4 (amended) at a concrete agreeing state. -/
theorem toggleMember_twice_id_witness :
    (toggleMember (toggleMember false (some 2) ∅).1 (some 2)
      (toggleMember false (some 2) ∅).2).2 = (∅ : Finset JSVal) :=
  toggleMember_twice_id false (some 2) ∅ (by decide)

/--
C5: `createTagGroup` issues the POST to /api/taggroups exactly when the
trimmed name is non-empty and the selection set is non-empty; when either
validation fails it returns early with a user-visible alert and no network
request.
-/
theorem createTagGroup_validation (netOk : Bool) (st : AppState) :
    ((createTagGroup netOk st).postAttempted = true ↔
      (jsTrim st.nameInput ≠ "" ∧ st.selected ≠ ∅))
    ∧ (jsTrim st.nameInput = "" ∨ st.selected = ∅ →
        (createTagGroup netOk st).alertMsg.isSome = true ∧
        (createTagGroup netOk st).postAttempted = false) := by
  unfold createTagGroup
  by_cases h1 : jsTrim st.nameInput = ""
  · simp [h1]
  · by_cases h2 : st.selected.card = 0
    · have hempty : st.selected = ∅ := Finset.card_eq_zero.mp h2
      simp [h1, h2, hempty]
    · have hne : st.selected ≠ ∅ := fun h => h2 (by simp [h])
      cases netOk <;> simp [h1, h2, hne]

/-- Witness for C5: whitespace-only name, no POST issued. -/
theorem createTagGroup_validation_witness :
    (createTagGroup true
      { currentChatId := some 1, cachedMembers := [], selected := {JSVal.num 1},
        status := "", panelHidden := false, groupTitle := "",
        nameInput := "   " }).postAttempted = false :=
  ((createTagGroup_validation true
    { currentChatId := some 1, cachedMembers := [], selected := {JSVal.num 1},
      status := "", panelHidden := false, groupTitle := "",
      nameInput := "   " }).2 (Or.inl (by decide))).2

/--
C6 counterexample: when the member fetch fails, `openGroup` does not clear
the selection — in the code only the success branch of `loadMembers`
resets `selected` and `cachedMembers`, while the catch branch just writes
the status line.  At a state with a nonempty prior selection, opening a new
group with a failing member fetch leaves the selection nonempty.
-/
theorem openGroup_failure_keeps_selection :
    (openGroup 2 none none
      { currentChatId := some 1,
        cachedMembers := [Member.mk (some 1) none],
        selected := {JSVal.num 1}, status := "", panelHidden := false,
        groupTitle := "", nameInput := "" }).selected ≠ (∅ : Finset JSVal) := by
  decide

/--
C6 (amended): `openGroup` clears the selection and replaces the member
cache when the member fetch succeeds; when the member fetch fails the
selection set and the member cache are left unchanged (only the status line
reports the failure).
-/
theorem openGroup_selection_cache (chatId : Int) (title : Option String)
    (members : List Member) (st : AppState) :
    ((openGroup chatId title (some members) st).selected = ∅ ∧
      (openGroup chatId title (some members) st).cachedMembers = members)
    ∧ ((openGroup chatId title none st).selected = st.selected ∧
        (openGroup chatId title none st).cachedMembers = st.cachedMembers) :=
  ⟨⟨rfl, rfl⟩, ⟨rfl, rfl⟩⟩

/--
C7 counterexample: in the network-event trace of `openGroup` the member
fetch starts strictly after the tag-group fetch has completed — the body is
`await renderTagGroups(); await loadMembers();`, so the two requests are
sequenced, not issued as independent concurrent calls with no ordering
guarantee.
-/
theorem openGroup_fetches_sequenced :
    openGroupTrace.indexOf NetEvent.tagFetchDone <
      openGroupTrace.indexOf NetEvent.memberFetchStart := by decide

/--
C7 (amended): `openGroup` performs its two fetches strictly sequentially:
the tag-group fetch starts and completes before the member fetch starts,
because the first `await` suspends `openGroup` until `renderTagGroups` has
settled.  There is an ordering dependency: the member load is sequenced
after completion of the tag-group load.
-/
theorem openGroup_member_fetch_after_tag_fetch :
    openGroupTrace = [NetEvent.tagFetchStart, NetEvent.tagFetchDone,
      NetEvent.memberFetchStart, NetEvent.memberFetchDone]
    ∧ openGroupTrace.indexOf NetEvent.tagFetchStart <
        openGroupTrace.indexOf NetEvent.memberFetchStart
    ∧ openGroupTrace.indexOf NetEvent.tagFetchDone <
        openGroupTrace.indexOf NetEvent.memberFetchStart :=
  ⟨rfl, by decide, by decide⟩

/--
C8 counterexample: a failure inside `renderTagGroups` (first copy) is
caught and logged but produces no status-line message and no alert — it is
silently swallowed from the point of view of the user, contradicting the
claim that every failure is surfaced via a status line or a blocking
prompt.
-/
theorem renderTagGroups_failure_not_surfaced :
    surfacedToUser (renderTagGroupsRun false) = false ∧
    (renderTagGroupsRun false).logged = true ∧
    (renderTagGroupsRun false).threw = false := by decide

/--
C8 (amended): failures in `loadGroups`, `loadMembers` and `triggerTag`
(first copy) are caught and surfaced via the status line or an alert and do
not propagate; a post-validation network failure in `createTagGroup` (first
copy) is surfaced via an alert; `renderTagGroups` (first copy) catches and
logs its failures but surfaces nothing to the user; and in the second
copies `renderTagGroups` and `triggerTag` have no catch at all, so their
failures propagate out of the operation.
-/
theorem error_handling_per_operation :
    (surfacedToUser (loadGroupsRun false) = true ∧
      (loadGroupsRun false).threw = false)
    ∧ (surfacedToUser (loadMembersRun false) = true ∧
        (loadMembersRun false).threw = false)
    ∧ (surfacedToUser (triggerTagRun false) = true ∧
        (triggerTagRun false).threw = false)
    ∧ (∀ st : AppState, jsTrim st.nameInput ≠ "" → st.selected ≠ ∅ →
        (createTagGroup false st).alertMsg = some "Failed to create")
    ∧ (surfacedToUser (renderTagGroupsRun false) = false ∧
        (renderTagGroupsRun false).logged = true ∧
        (renderTagGroupsRun false).threw = false)
    ∧ (renderTagGroups2Run false).threw = true
    ∧ (triggerTag2Run false).threw = true := by
  refine ⟨by decide, by decide, by decide, ?_, by decide, by decide, by decide⟩
  intro st h1 h2
  have h2' : ¬st.selected.card = 0 := fun h => h2 (Finset.card_eq_zero.mp h)
  unfold createTagGroup
  simp [h1, h2']

/-- Witness for C8 (amended): a concrete failing `createTagGroup` call
surfaces its alert. -/
theorem error_handling_per_operation_witness :
    (createTagGroup false
      { currentChatId := some 1, cachedMembers := [],
        selected := {JSVal.num 1}, status := "", panelHidden := false,
        groupTitle := "", nameInput := "tag" }).alertMsg =
      some "Failed to create" :=
  error_handling_per_operation.2.2.2.1
    { currentChatId := some 1, cachedMembers := [],
      selected := {JSVal.num 1}, status := "", panelHidden := false,
      groupTitle := "", nameInput := "tag" } (by decide) (by decide)

/--
C9 counterexample: the second copy of `createTagGroup` (lines 298-310) has
no `try`/`catch`, so at a concrete valid state (non-empty trimmed name,
non-empty selection) a network failure shows no alert at all — the
rejection escapes the function — refuting the claim that on failure a
visible alert is shown in every cited copy.
-/
theorem createTagGroup2_failure_no_alert :
    (createTagGroup2 false
      { currentChatId := some 1, cachedMembers := [],
        selected := {JSVal.num 1}, status := "", panelHidden := false,
        groupTitle := "", nameInput := "tag" }).alertMsg = none ∧
    (createTagGroup2 false
      { currentChatId := some 1, cachedMembers := [],
        selected := {JSVal.num 1}, status := "", panelHidden := false,
        groupTitle := "", nameInput := "tag" }).threw = true := by decide

/--
C9 (amended): no branch of either copy of `createTagGroup` mutates the
selection set; when both validations pass, on network success both copies
clear the tg-name input and re-fetch the tag-group list; on network failure
the first copy (lines 160-178) shows a visible alert and leaves the
selection untouched, while the second copy (lines 298-310) shows no alert —
its rejection propagates out of the function — and leaves the selection and
the tg-name input untouched.
-/
theorem createTagGroup_frame (netOk : Bool) (st : AppState) :
    ((createTagGroup netOk st).selectedAfter = st.selected ∧
      (createTagGroup2 netOk st).selectedAfter = st.selected)
    ∧ (jsTrim st.nameInput ≠ "" → st.selected ≠ ∅ → netOk = true →
        (createTagGroup netOk st).nameInputAfter = "" ∧
        (createTagGroup netOk st).refetchedTagGroups = true ∧
        (createTagGroup2 netOk st).nameInputAfter = "" ∧
        (createTagGroup2 netOk st).refetchedTagGroups = true)
    ∧ (jsTrim st.nameInput ≠ "" → st.selected ≠ ∅ → netOk = false →
        (createTagGroup netOk st).alertMsg = some "Failed to create" ∧
        (createTagGroup netOk st).selectedAfter = st.selected ∧
        (createTagGroup2 netOk st).alertMsg = none ∧
        (createTagGroup2 netOk st).threw = true ∧
        (createTagGroup2 netOk st).nameInputAfter = st.nameInput) := by
  refine ⟨⟨?_, ?_⟩, ?_, ?_⟩
  · unfold createTagGroup
    by_cases h1 : jsTrim st.nameInput = ""
    · simp [h1]
    · by_cases h2 : st.selected.card = 0
      · simp [h1, h2]
      · cases netOk <;> simp [h1, h2]
  · unfold createTagGroup2
    by_cases h1 : jsTrim st.nameInput = ""
    · simp [h1]
    · by_cases h2 : st.selected.card = 0
      · simp [h1, h2]
      · cases netOk <;> simp [h1, h2]
  · intro h1 h2 hok
    have h2' : ¬st.selected.card = 0 := fun h => h2 (Finset.card_eq_zero.mp h)
    subst hok
    unfold createTagGroup createTagGroup2
    simp [h1, h2']
  · intro h1 h2 hok
    have h2' : ¬st.selected.card = 0 := fun h => h2 (Finset.card_eq_zero.mp h)
    subst hok
    unfold createTagGroup createTagGroup2
    simp [h1, h2']

/-- Witness for C9 (amended) at a concrete valid call succeeding on the
network: both copies clear the tg-name input. -/
theorem createTagGroup_frame_witness :
    (createTagGroup true
      { currentChatId := some 1, cachedMembers := [],
        selected := {JSVal.num 1}, status := "", panelHidden := false,
        groupTitle := "", nameInput := "tag" }).nameInputAfter = "" ∧
    (createTagGroup2 true
      { currentChatId := some 1, cachedMembers := [],
        selected := {JSVal.num 1}, status := "", panelHidden := false,
        groupTitle := "", nameInput := "tag" }).nameInputAfter = "" :=
  have h := (createTagGroup_frame true
    { currentChatId := some 1, cachedMembers := [],
      selected := {JSVal.num 1}, status := "", panelHidden := false,
      groupTitle := "", nameInput := "tag" }).2.1 (by decide) (by decide) rfl
  ⟨h.1, h.2.2.1⟩

/--
C10 counterexample: with cached members of ids 0 and 1 and the selection
containing the raw value 0 (reachable by a `toggleMember` click on the
falsy-id card, which adds the raw `m.id`), the selecting branch runs
(1 of 2 selected), skips the falsy member but keeps the previously selected
0, and ends with size 2 — equal to the member count, not strictly smaller.
A further `selectAllToggle` call then takes the clearing branch and empties
the selection, refuting that repeated invocations can never clear it.
-/
theorem selectAll_falsy_counterexample :
    ({JSVal.num 0} : Finset JSVal).card ≠
      ([Member.mk (some 0) none, Member.mk (some 1) none] : List Member).length
    ∧ (selectAllToggle [Member.mk (some 0) none, Member.mk (some 1) none]
        {JSVal.num 0}).card =
      ([Member.mk (some 0) none, Member.mk (some 1) none] : List Member).length
    ∧ selectAllToggle [Member.mk (some 0) none, Member.mk (some 1) none]
        (selectAllToggle [Member.mk (some 0) none, Member.mk (some 1) none]
          {JSVal.num 0}) = ∅ := by decide

/--
C10 (amended): when some cached member has a falsy id and the current
selection only contains truthy parsed member-id values (as every selection
built by the select-all control alone is), the selecting branch yields
exactly the truthy-id set, whose size is strictly smaller than the member
count; hence the size-equality guard of the clearing branch cannot fire and
a repeated `selectAllToggle` leaves the selection at the truthy-id set
instead of clearing it.  (If the selection may also contain raw falsy ids
added by `toggleMember`, the set can reach full size and be cleared, as the
counterexample shows.)
-/
theorem selectAll_falsy_never_full (cached : List Member) (s : Finset JSVal)
    (hfalsy : ∃ m ∈ cached, idFalsy m.id = true)
    (hsub : s ⊆ truthyIds cached) :
    selectAllToggle cached s = truthyIds cached
    ∧ (selectAllToggle cached s).card < cached.length
    ∧ selectAllToggle cached (selectAllToggle cached s) = truthyIds cached := by
  obtain ⟨m, hm, hfm⟩ := hfalsy
  have hlt : (truthyIds cached).card < cached.length := by
    have h1 : (truthyIds cached).card ≤
        ((cached.filter (fun x => numTruthy (parseDatasetId x.id))).map
          (fun x => numOrNaN (parseDatasetId x.id))).length :=
      List.toFinset_card_le _
    rw [List.length_map] at h1
    exact lt_of_le_of_lt h1
      (length_filter_lt_of_mem _ hm (numTruthy_of_falsy hfm))
  have hscard : s.card < cached.length :=
    lt_of_le_of_lt (Finset.card_le_card hsub) hlt
  have hsel : selectAllToggle cached s = truthyIds cached := by
    rw [selectAllToggle, if_neg (Nat.ne_of_lt hscard), foldl_selectAllInsert]
    exact Finset.union_eq_right.mpr hsub
  refine ⟨hsel, by rw [hsel]; exact hlt, ?_⟩
  rw [hsel, selectAllToggle, if_neg (Nat.ne_of_lt hlt), foldl_selectAllInsert]
  exact Finset.union_self _

/-- Witness for C10 (amended) at a concrete two-member list with one falsy
id, starting from the empty selection. -/
theorem selectAll_falsy_never_full_witness :
    (selectAllToggle [Member.mk none none, Member.mk (some 3) none] ∅).card <
      ([Member.mk none none, Member.mk (some 3) none] : List Member).length :=
  (selectAll_falsy_never_full [Member.mk none none, Member.mk (some 3) none]
    ∅ (by decide) (by decide)).2.1

end Webapp
